import Mathlib

/-!
Verification development for the bidirectional dual-retriever synchronizer
of openprocurement_client (sync.py).

Shallow embedding conventions:
* Items of the feed are uninterpreted; we model them as natural numbers.
* Offsets (cursors) are uninterpreted strings.
* Session cookie jars are association lists of string pairs; clearing the
  jar yields the empty list.
* Durations inside get_response are measured in tenths of a second so that
  every constant of the source is an exact natural number: the initial
  sleep_interval 0.2 s is 2, the rate-limit cap 120 s is 1200, the general
  cap 300 s is 3000; doubling is doubling in either unit.  The fields of
  retrievers_params (whole seconds in the source defaults) are modelled as
  integers of seconds.
* The retry loop of get_response interacts with the upstream through a
  finite script of fetch outcomes, one outcome per attempt, mirroring the
  sequence of results the client call sync_tenders would produce.  A
  script that runs out before the loop stops is reported with the
  distinguished outcome scriptExhausted, meaning the loop is still
  running; the real loop only stops by returning a page or raising.
* Python exceptions that escape a function are modelled with an explicit
  raised constructor.
-/

namespace OPClient

/-- Worker status constants, as in sync.py. -/
def FINISHED : ℕ := 0

def INITIALIZED : ℕ := 1

def SLEEP : ℕ := 2

def PROCESS_REQUEST : ℕ := 3

def PROCESS_DATA : ℕ := 4

def BROKEN : ℕ := 5

/-- One page of the changes feed: the response of sync_tenders.  The source
reads response.data, response.next_page.offset and response.prev_page.offset. -/
structure Page where
  data : List ℕ
  next_offset : String
  prev_offset : String
deriving DecidableEq, Repr

/-- Session cookie jar; cookie clearing makes it empty. -/
abbrev Cookies := List (String × String)

/-- The request parameter dictionary, restricted to the fields the core
reads or writes: the descending flag, the feed name, and the offset cursor.
offset = none models the absence of the key in the Python dict. -/
structure Params where
  descending : Bool
  feed : String
  offset : Option String
deriving DecidableEq, Repr

/-- The outcome of one fetch attempt (one client.sync_tenders call),
matching the except-clauses of get_response.  A RequestFailed carries its
HTTP status code; status 429 is the rate-limited case. -/
inductive FetchOutcome where
  | ok (page : Page)
  | preconditionFailed
  | connectionError
  | requestFailed (status_code : ℕ)
  | resourceNotFound
  | otherExn
deriving DecidableEq, Repr

/-- An error escaping get_response (a raised exception), or the marker that
the finite outcome script ended while the loop was still retrying. -/
inductive ReqError where
  | connectionError
  | requestFailed (status_code : ℕ)
  | keyError
  | otherExn
  | scriptExhausted
deriving DecidableEq, Repr

/-- Return value or escaped exception of one get_response call. -/
inductive ReqOutcome where
  | page (p : Page)
  | raised (e : ReqError)
deriving DecidableEq, Repr

/-- The observable result of one call to get_response: the returned page or
escaped exception, the final params dict (the caller holds it by reference,
so the offset deletion is visible to the caller), the final cookie jar, and
the ordered list of sleep durations performed (tenths of a second). -/
structure GetResult where
  outcome : ReqOutcome
  params : Params
  cookies : Cookies
  sleeps : List ℕ
deriving DecidableEq, Repr

/-- The retry loop body of get_response (sync.py lines 46-99), one script
entry per attempt.  sleep_interval is the mutable local of the source, in
tenths of a second; each branch mirrors the corresponding except clause:
* ok: response_fail becomes False and the page is returned;
* PreconditionFailed: log and continue, no sleep;
* ConnectionError: raise once sleep_interval exceeds 300 s, else double the
  interval and sleep the doubled value;
* RequestFailed with status 429: raise once sleep_interval exceeds 120 s,
  else double the interval and sleep the doubled value;
* RequestFailed with any other status: count the metric and continue with
  no sleep;
* ResourceNotFound: clear the session cookies, then delete the offset key
  (a deletion when the key is absent raises KeyError, which escapes the
  loop since it is raised inside the handler);
* any other exception: raise once sleep_interval exceeds 300 s, else
  double and sleep the doubled value. -/
def get_response_loop (cookies : Cookies) (params : Params) (sleep_interval : ℕ) :
    List FetchOutcome → GetResult
  | [] => { outcome := .raised .scriptExhausted, params := params,
            cookies := cookies, sleeps := [] }
  | .ok page :: _ =>
      { outcome := .page page, params := params, cookies := cookies, sleeps := [] }
  | .preconditionFailed :: rest => get_response_loop cookies params sleep_interval rest
  | .connectionError :: rest =>
      if sleep_interval > 3000 then
        { outcome := .raised .connectionError, params := params,
          cookies := cookies, sleeps := [] }
      else
        let r := get_response_loop cookies params (sleep_interval * 2) rest
        { r with sleeps := sleep_interval * 2 :: r.sleeps }
  | .requestFailed s :: rest =>
      if s = 429 then
        if sleep_interval > 1200 then
          { outcome := .raised (.requestFailed 429), params := params,
            cookies := cookies, sleeps := [] }
        else
          let r := get_response_loop cookies params (sleep_interval * 2) rest
          { r with sleeps := sleep_interval * 2 :: r.sleeps }
      else
        get_response_loop cookies params sleep_interval rest
  | .resourceNotFound :: rest =>
      match params.offset with
      | some _ => get_response_loop [] { params with offset := none } sleep_interval rest
      | none =>
          { outcome := .raised .keyError, params := params,
            cookies := [], sleeps := [] }
  | .otherExn :: rest =>
      if sleep_interval > 3000 then
        { outcome := .raised .otherExn, params := params,
          cookies := cookies, sleeps := [] }
      else
        let r := get_response_loop cookies params (sleep_interval * 2) rest
        { r with sleeps := sleep_interval * 2 :: r.sleeps }

/-- get_response (sync.py line 46): the retry loop entered with the local
sleep_interval starting at 0.2 s (2 tenths). -/
def get_response (cookies : Cookies) (params : Params)
    (script : List FetchOutcome) : GetResult :=
  get_response_loop cookies params 2 script

/-- A concrete params value with the offset key present, for closed tests. -/
def pOff : Params := { descending := false, feed := "changes", offset := some "o1" }

/-- A concrete page, for closed tests. -/
def page0 : Page := { data := [7, 8], next_offset := "n0", prev_offset := "p0" }

/-- The retrievers_params dictionary (sleep fields in whole seconds, as the
source defaults; queue_size a natural number). -/
structure RParams where
  down_requests_sleep : ℤ
  up_requests_sleep : ℤ
  up_wait_sleep : ℤ
  up_wait_sleep_min : ℤ
  queue_size : ℕ
deriving DecidableEq, Repr

/-- DEFAULT_RETRIEVERS_PARAMS of sync.py lines 29-35. -/
def DEFAULT_RETRIEVERS_PARAMS : RParams :=
  { down_requests_sleep := 5
    up_requests_sleep := 1
    up_wait_sleep := 30
    up_wait_sleep_min := 5
    queue_size := 101 }

/-! ## Forward retriever (sync.py retriever_forward, lines 282-342)

The forward retriever is an infinite loop; we embed it as a transition
system indexed by fetches (polls).  Tracing the control flow, the fetch
sites are: the initial fetch at line 286; the fetch at line 302 inside the
inner loop over non-empty responses; and the fetch at line 324 performed
after the idle sleep that follows an empty response.  After a fetch whose
data is non-empty, control is inside the inner while loop, so the next
fetch happens at line 302; after a fetch whose data is empty, the inner
loop exits (or is not entered) and the next fetch happens at line 324.
The adaptive block at lines 330-337 runs exactly after the fetch at line
324 and inspects the data of that fetch. -/

/-- Which source line the next fetch of the forward retriever executes. -/
inductive FetchSite where
  | initial
  | inner
  | postIdle
deriving DecidableEq, Repr

/-- The state of the forward retriever between fetches: the current value
of retrievers_params up_wait_sleep, the forward cursor, the sequence of
items pushed to the queue so far, and the site of the next fetch. -/
structure FwdState where
  up_wait_sleep : ℤ
  offset : String
  emitted : List ℕ
  site : FetchSite
deriving DecidableEq, Repr

/-- The adaptive block, sync.py lines 331-337: after the post-idle fetch,
decrement up_wait_sleep when the response was non-empty and the value is
above the floor, increment it when the response was empty and the value is
below 30. -/
def adaptive_adjust (up_wait_sleep_min up_wait_sleep : ℤ) (dataLen : ℕ) : ℤ :=
  if dataLen ≠ 0 then
    if up_wait_sleep > up_wait_sleep_min then up_wait_sleep - 1 else up_wait_sleep
  else
    if up_wait_sleep < 30 then up_wait_sleep + 1 else up_wait_sleep

/-- One fetch of the forward retriever together with the processing of its
response p: items are pushed in order (when non-empty, by the inner loop
body or before it), the cursor advances to p.next_page.offset (line 298 in
the inner loop, line 320 before a post-idle fetch), the adaptive block
runs if and only if the fetch was the post-idle one, and the site of the
next fetch is determined by the emptiness of p.data. -/
def retriever_forward_step (adaptive : Bool) (up_wait_sleep_min : ℤ)
    (st : FwdState) (p : Page) : FwdState :=
  { up_wait_sleep :=
      if adaptive ∧ st.site = .postIdle then
        adaptive_adjust up_wait_sleep_min st.up_wait_sleep p.data.length
      else st.up_wait_sleep
    offset := p.next_offset
    emitted := st.emitted ++ p.data
    site := if p.data = [] then .postIdle else .inner }

/-- n fetches of the forward retriever against an upstream that answers
poll k with upstream k. -/
def retriever_forward_run (adaptive : Bool) (up_wait_sleep_min : ℤ)
    (st : FwdState) (upstream : ℕ → Page) : ℕ → FwdState
  | 0 => st
  | n + 1 =>
      retriever_forward_step adaptive up_wait_sleep_min
        (retriever_forward_run adaptive up_wait_sleep_min st upstream n) (upstream n)

/-! ## Backward retriever (sync.py retriever_backward, lines 247-280) -/

/-- The observable result of a terminated backward retriever: its final
status, its greenlet return value, the items it pushed and its final
cursor. -/
structure BwdResult where
  status : ℕ
  retval : ℤ
  emitted : List ℕ
  offset : String
deriving DecidableEq, Repr

/-- The backward retriever consuming the successive pages its fetches
return: while the page has data it pushes the items, advances the cursor
to next_page.offset and fetches again (with a down_requests_sleep pause);
at the first empty page it sets its status to FINISHED and returns 0.
none means the finite page script ran out while the loop was still
running. -/
def retriever_backward (offset : String) (emitted : List ℕ) :
    List Page → Option BwdResult
  | [] => none
  | p :: rest =>
      if p.data = [] then
        some { status := FINISHED, retval := 0, emitted := emitted, offset := offset }
      else
        retriever_backward p.next_offset (emitted ++ p.data) rest

/-! ## Supervisor loop (sync.py get_resource_items, lines 176-210) -/

/-- What the supervisor observes about the two workers at the top of one
iteration: whether each greenlet is ready (terminated), and the backward
value of the backward greenlet.  A greenlet that died with an exception (or was killed)
has value none; a clean return of 0 is some 0. -/
structure SupervisorObs where
  backward_ready : Bool
  backward_value : Option ℤ
  forward_ready : Bool
deriving DecidableEq, Repr

/-- Supervisor bookkeeping: the check_down_worker flag and the number of
restart_sync calls performed. -/
structure SupervisorState where
  check_down_worker : Bool
  restarts : ℕ
deriving DecidableEq, Repr

/-- One iteration of the supervision checks at the top of the
get_resource_items loop (lines 195-204): if check_down_worker is set and
the backward worker is ready, a value of 0 clears check_down_worker
(stop checking), any other value triggers restart_sync and sets
check_down_worker back to true; then, if the forward worker is ready,
restart_sync runs and check_down_worker is set back to true. -/
def get_resource_items_step (st : SupervisorState) (obs : SupervisorObs) :
    SupervisorState :=
  let st1 :=
    if st.check_down_worker ∧ obs.backward_ready then
      if obs.backward_value = some 0 then
        { st with check_down_worker := false }
      else
        { check_down_worker := true, restarts := st.restarts + 1 }
    else st
  if obs.forward_ready then
    { check_down_worker := true, restarts := st1.restarts + 1 }
  else st1

/-! ## Client initialization and seeding (sync.py init_api_clients line
129, handle_response_data line 150, start_sync line 154) -/

/-- The events start_sync performs, in order. -/
inductive SyncEvent where
  | fetch (descending : Bool)
  | put (item : ℕ)
  | setBackwardOffset (o : String)
  | setForwardOffset (o : String)
  | spawnBackward
  | spawnForward
deriving DecidableEq, Repr

/-- The feeder state touched by init_api_clients and start_sync: the queue
contents, the two params dictionaries, and whether each worker greenlet
has been spawned. -/
structure FeederState where
  queue : List ℕ
  backward_params : Params
  forward_params : Params
  backward_spawned : Bool
  forward_spawned : Bool
deriving DecidableEq, Repr

/-- init_api_clients (lines 129-140): backward_params gets
descending=True and feed=changes, forward_params only feed=changes (the
key absence of descending is modelled as false); neither has an offset
yet; fresh unspawned clients. -/
def init_api_clients (st : FeederState) : FeederState :=
  { st with
    backward_params := { descending := true, feed := "changes", offset := none }
    forward_params := { descending := false, feed := "changes", offset := none }
    backward_spawned := false
    forward_spawned := false }

/-- handle_response_data (lines 150-152): put every item of the page data
into the queue, in order. -/
def handle_response_data (queue : List ℕ) (data : List ℕ) : List ℕ :=
  data.foldl (fun q tender => q ++ [tender]) queue

/-- start_sync (lines 154-163): one synchronous fetch with the backward
client and backward_params, push its items, set the backward offset to the
next_page.offset of the seed page and the forward offset to its
prev_page.offset, then spawn the backward and forward workers.  Returns
the new state and the ordered event trace. -/
def start_sync (st : FeederState) (seed : Page) : FeederState × List SyncEvent :=
  ({ queue := handle_response_data st.queue seed.data
     backward_params := { st.backward_params with offset := some seed.next_offset }
     forward_params := { st.forward_params with offset := some seed.prev_offset }
     backward_spawned := true
     forward_spawned := true },
   SyncEvent.fetch st.backward_params.descending ::
     (seed.data.map SyncEvent.put ++
       [SyncEvent.setBackwardOffset seed.next_offset,
        SyncEvent.setForwardOffset seed.prev_offset,
        SyncEvent.spawnBackward, SyncEvent.spawnForward]))

/-! ## Bounded queue with blocking put (gevent Queue with
maxsize=queue_size, created in sync.py line 118, filled one item at a time
by handle_response_data).  The producer side of one retriever: it is
either about to fetch the next page, or in the middle of
handle_response_data with a list of items still to put.  A put is enabled
only when the queue is not full - a producer facing a full queue is
blocked, and it can only reach its next fetch after finishing all puts of
the current page. -/

/-- The producer position of a retriever. -/
inductive ProdPhase where
  | fetching
  | pushing (pending : List ℕ)
deriving DecidableEq, Repr

/-- Joint state of the bounded queue and one producing retriever. -/
structure QState where
  maxsize : ℕ
  queue : List ℕ
  prod : ProdPhase
  fetches : ℕ
deriving DecidableEq, Repr

/-- Transition labels: a fetch obtaining a page, a single queue.put, the
end of handle_response_data, or a consumer queue.get. -/
inductive QLabel where
  | fetch (page : List ℕ)
  | put (x : ℕ)
  | pageDone
  | get (x : ℕ)
deriving DecidableEq, Repr

/-- Transitions: a retriever fetches only from the fetching phase; a put
appends one pending item and requires a non-full queue (a put on a full
queue blocks, so there is no transition); when all items of the page are
put, the retriever returns to fetching; the consumer may get the head of a
non-empty queue. -/
inductive QStep : QState → QLabel → QState → Prop where
  | fetch (s : QState) (page : List ℕ) :
      s.prod = .fetching →
      QStep s (.fetch page) { s with prod := .pushing page, fetches := s.fetches + 1 }
  | put (s : QState) (x : ℕ) (pending : List ℕ) :
      s.prod = .pushing (x :: pending) →
      s.queue.length < s.maxsize →
      QStep s (.put x) { s with queue := s.queue ++ [x], prod := .pushing pending }
  | pageDone (s : QState) :
      s.prod = .pushing [] →
      QStep s .pageDone { s with prod := .fetching }
  | get (s : QState) (x : ℕ) (rest : List ℕ) :
      s.queue = x :: rest →
      QStep s (.get x) { s with queue := rest }

/-- States reachable from the initial empty queue of capacity m. -/
inductive QReach (m : ℕ) : QState → Prop where
  | init : QReach m { maxsize := m, queue := [], prod := .fetching, fetches := 0 }
  | step {s : QState} {l : QLabel} {s' : QState} :
      QReach m s → QStep s l s' → QReach m s'

/-- A concrete upstream returning a non-empty page on every poll. -/
def allNonEmptyUpstream : ℕ → Page :=
  fun _ => { data := [0], next_offset := "n", prev_offset := "p" }

/-- The forward retriever about to perform its initial fetch with
up_wait_sleep at its default 30 s. -/
def fwdStart30 : FwdState :=
  { up_wait_sleep := 30, offset := "seed", emitted := [], site := .initial }

/-! ## Theorems -/

/-- In get_response_loop the sleep_interval is always a power of two (in
tenths of a second) and, because both caps are checked before the interval
is doubled, no recorded sleep ever exceeds 4096 tenths (409.6 s).  The
interval argument is written as 2 ^ (k + 1); the entry point uses k = 0. -/
theorem get_response_loop_sleeps_le (script : List FetchOutcome) :
    ∀ (cookies : Cookies) (params : Params) (k : ℕ), k ≤ 11 →
      ∀ s ∈ (get_response_loop cookies params (2 ^ (k + 1)) script).sleeps, s ≤ 4096 := by
  induction script with
  | nil => intro cookies params k hk s hs; simp [get_response_loop] at hs
  | cons o rest ih =>
    intro cookies params k hk s hs
    cases o with
    | ok page => simp [get_response_loop] at hs
    | preconditionFailed =>
        exact ih cookies params k hk s (by simpa [get_response_loop] using hs)
    | connectionError =>
        simp only [get_response_loop] at hs
        split_ifs at hs with hcap
        · simp at hs
        · have hk1 : k + 1 ≤ 11 := by
            by_contra hcon
            push_neg at hcon
            have h12 : (2 : ℕ) ^ 12 ≤ 2 ^ (k + 1) := Nat.pow_le_pow_right (by norm_num) hcon
            norm_num at h12
            omega
          rw [← pow_succ] at hs
          simp only [List.mem_cons] at hs
          rcases hs with rfl | hs
          · calc (2 : ℕ) ^ (k + 1 + 1) ≤ 2 ^ 12 :=
                  Nat.pow_le_pow_right (by norm_num) (by omega)
              _ = 4096 := by norm_num
          · exact ih cookies params (k + 1) hk1 s hs
    | requestFailed st =>
        simp only [get_response_loop] at hs
        split_ifs at hs with h429 hcap
        · simp at hs
        · have hk1 : k + 1 ≤ 11 := by
            by_contra hcon
            push_neg at hcon
            have h12 : (2 : ℕ) ^ 12 ≤ 2 ^ (k + 1) := Nat.pow_le_pow_right (by norm_num) hcon
            norm_num at h12
            omega
          rw [← pow_succ] at hs
          simp only [List.mem_cons] at hs
          rcases hs with rfl | hs
          · calc (2 : ℕ) ^ (k + 1 + 1) ≤ 2 ^ 12 :=
                  Nat.pow_le_pow_right (by norm_num) (by omega)
              _ = 4096 := by norm_num
          · exact ih cookies params (k + 1) hk1 s hs
        · exact ih cookies params k hk s hs
    | resourceNotFound =>
        rcases ho : params.offset with _ | off
        · simp [get_response_loop, ho] at hs
        · simp only [get_response_loop, ho] at hs
          exact ih [] { params with offset := none } k hk s hs
    | otherExn =>
        simp only [get_response_loop] at hs
        split_ifs at hs with hcap
        · simp at hs
        · have hk1 : k + 1 ≤ 11 := by
            by_contra hcon
            push_neg at hcon
            have h12 : (2 : ℕ) ^ 12 ≤ 2 ^ (k + 1) := Nat.pow_le_pow_right (by norm_num) hcon
            norm_num at h12
            omega
          rw [← pow_succ] at hs
          simp only [List.mem_cons] at hs
          rcases hs with rfl | hs
          · calc (2 : ℕ) ^ (k + 1 + 1) ≤ 2 ^ 12 :=
                  Nat.pow_le_pow_right (by norm_num) (by omega)
              _ = 4096 := by norm_num
          · exact ih cookies params (k + 1) hk1 s hs

/-- Claim C2, counterexample to the claim as stated: in a call to
get_response facing twelve consecutive ConnectionErrors, a single backoff
sleep of 4096 tenths of a second (409.6 s) is performed, which exceeds the
300-second (3000 tenths) cap; so the claim that no single backoff sleep
exceeds the cap is false. -/
theorem get_response_c2_counterexample :
    4096 ∈ (get_response [] pOff (List.replicate 12 .connectionError)).sleeps
      ∧ 3000 < 4096 := by decide

/-- Claim C2, amended: each ConnectionError doubles the backoff interval
(which starts at 0.2 s = 2 tenths, afresh in every call to get_response,
the first conjunct being the definitional freshness) and sleeps the
doubled value, so the sleeps are 0.4 s, 0.8 s, and so on; the cap is
checked against the interval before doubling, hence a single sleep can
reach but never exceed 409.6 s (4096 tenths); the call raises the
ConnectionError on the attempt at which the interval has exceeded 300 s,
which is the twelfth consecutive ConnectionError, the first eleven having
slept 2 ^ (k + 2) tenths for k = 0 .. 10. -/
theorem get_response_c2_backoff_amended :
    (∀ cookies params script,
        get_response cookies params script = get_response_loop cookies params 2 script)
    ∧ (∀ script cookies params,
        ∀ s ∈ (get_response cookies params script).sleeps, s ≤ 4096)
    ∧ (get_response [] pOff (List.replicate 11 .connectionError)).sleeps
        = (List.range 11).map (fun k => 2 ^ (k + 2))
    ∧ (get_response [] pOff (List.replicate 11 .connectionError)).outcome
        = .raised .scriptExhausted
    ∧ (get_response [] pOff (List.replicate 12 .connectionError)).outcome
        = .raised .connectionError := by
  refine ⟨fun _ _ _ => rfl, ?_, by decide, by decide, by decide⟩
  intro script cookies params s hs
  exact get_response_loop_sleeps_le script cookies params 0 (by norm_num) s hs

/-- Claim C2, witness: a single ConnectionError sleeps 0.4 s, within the
409.6 s bound. -/
theorem get_response_c2_witness :
    4 ∈ (get_response [] pOff [FetchOutcome.connectionError]).sleeps ∧ (4 : ℕ) ≤ 4096 :=
  ⟨by decide,
   get_response_c2_backoff_amended.2.1 [FetchOutcome.connectionError] [] pOff 4 (by decide)⟩

/-- Claim C3, counterexample to the claim as stated: in a call to
get_response facing ten consecutive 429 responses, a single backoff sleep
of 2048 tenths of a second (204.8 s) is performed, which exceeds 120 s
(1200 tenths); so the 120-second bound is not a cap on the sleep itself. -/
theorem get_response_c3_counterexample :
    2048 ∈ (get_response [] pOff (List.replicate 10 (.requestFailed 429))).sleeps
      ∧ 1200 < 2048 := by decide

/-- Claim C3, amended: a 429 outcome follows exactly the shape of the
ConnectionError backoff - when the interval is within the cap, the
interval is doubled and the doubled value is slept (second and third
conjuncts exhibit the identical continuation) - but with the cap 120 s
checked against the interval before doubling, so a single sleep can reach
204.8 s; the call raises the error on the attempt at which the interval
has exceeded 120 s, which is the eleventh consecutive 429, the first ten
having slept 2 ^ (k + 2) tenths for k = 0 .. 9. -/
theorem get_response_c3_rate_limited_amended :
    (∀ (cookies : Cookies) (params : Params) (si : ℕ) (rest : List FetchOutcome),
        si > 1200 →
        get_response_loop cookies params si (.requestFailed 429 :: rest)
          = { outcome := .raised (.requestFailed 429), params := params,
              cookies := cookies, sleeps := [] })
    ∧ (∀ (cookies : Cookies) (params : Params) (si : ℕ) (rest : List FetchOutcome),
        ¬ si > 1200 →
        get_response_loop cookies params si (.requestFailed 429 :: rest)
          = (let r := get_response_loop cookies params (si * 2) rest
             { r with sleeps := si * 2 :: r.sleeps }))
    ∧ (∀ (cookies : Cookies) (params : Params) (si : ℕ) (rest : List FetchOutcome),
        ¬ si > 3000 →
        get_response_loop cookies params si (.connectionError :: rest)
          = (let r := get_response_loop cookies params (si * 2) rest
             { r with sleeps := si * 2 :: r.sleeps }))
    ∧ (get_response [] pOff (List.replicate 10 (.requestFailed 429))).sleeps
        = (List.range 10).map (fun k => 2 ^ (k + 2))
    ∧ (get_response [] pOff (List.replicate 11 (.requestFailed 429))).outcome
        = .raised (.requestFailed 429) := by
  refine ⟨?_, ?_, ?_, by decide, by decide⟩
  · intro cookies params si rest hcap
    simp [get_response_loop, hcap]
  · intro cookies params si rest hcap
    simp [get_response_loop, hcap]
  · intro cookies params si rest hcap
    simp [get_response_loop, hcap]

/-- Claim C3, witness: a first 429 at interval 2 tenths sleeps 4 tenths
and continues. -/
theorem get_response_c3_witness :
    get_response_loop [] pOff 2 [FetchOutcome.requestFailed 429]
      = (let r := get_response_loop [] pOff 4 []
         { r with sleeps := 4 :: r.sleeps }) :=
  get_response_c3_rate_limited_amended.2.1 [] pOff 2 [] (by norm_num)

/-- Claim C7: on ResourceNotFound the loop clears the session cookies,
deletes the offset key from the params dict - the deletion is visible in
the params the caller holds by reference, which is the params component of
the result - and retries immediately: the result is exactly the result of
the continuation at the same sleep_interval, so no sleep is recorded and
nothing is raised by this step.  The second conjunct runs a whole call:
after a ResourceNotFound followed by a success, the page is returned with
empty cookies, no offset in params, and no sleeps. -/
theorem get_response_c7_resource_not_found :
    (∀ (cookies : Cookies) (params : Params) (si : ℕ) (rest : List FetchOutcome)
        (off : String), params.offset = some off →
        get_response_loop cookies params si (.resourceNotFound :: rest)
          = get_response_loop [] { params with offset := none } si rest)
    ∧ get_response [("SERVER_ID", "s1")] pOff [.resourceNotFound, .ok page0]
        = { outcome := .page page0, params := { pOff with offset := none },
            cookies := [], sleeps := [] } := by
  refine ⟨?_, by decide⟩
  intro cookies params si rest off ho
  simp [get_response_loop, ho]

/-- Claim C7, witness: the ResourceNotFound step at the concrete params
pOff, whose offset key is present. -/
theorem get_response_c7_witness :
    get_response_loop [("SERVER_ID", "s1")] pOff 2 [FetchOutcome.resourceNotFound]
      = get_response_loop [] { pOff with offset := none } 2 [] :=
  get_response_c7_resource_not_found.1 [("SERVER_ID", "s1")] pOff 2 [] "o1" (by decide)

/-- Claim C8: a RequestFailed outcome whose status is not 429 makes the
loop continue with the very same state - same sleep_interval, params and
cookies, no sleep recorded, nothing raised - and this holds for any number
of consecutive such failures: n failures with status 500 followed by a
success return the page with no sleeps at all. -/
theorem get_response_c8_request_failed :
    (∀ (cookies : Cookies) (params : Params) (si : ℕ) (rest : List FetchOutcome)
        (s : ℕ), s ≠ 429 →
        get_response_loop cookies params si (.requestFailed s :: rest)
          = get_response_loop cookies params si rest)
    ∧ (∀ n : ℕ,
        get_response [] pOff (List.replicate n (.requestFailed 500) ++ [.ok page0])
          = { outcome := .page page0, params := pOff, cookies := [], sleeps := [] }) := by
  constructor
  · intro cookies params si rest s hs
    simp [get_response_loop, hs]
  · intro n
    induction n with
    | zero => decide
    | succ n ih =>
        rw [List.replicate_succ, List.cons_append]
        show get_response_loop [] pOff 2 _ = _
        rw [show get_response_loop [] pOff 2
              (.requestFailed 500 :: (List.replicate n (.requestFailed 500) ++ [.ok page0]))
            = get_response_loop [] pOff 2
              (List.replicate n (.requestFailed 500) ++ [.ok page0]) by
          simp [get_response_loop]]
        exact ih

/-- Claim C8, witness: one RequestFailed with status 500 at the concrete
starting state. -/
theorem get_response_c8_witness :
    get_response_loop [] pOff 2 [FetchOutcome.requestFailed 500]
      = get_response_loop [] pOff 2 [] :=
  get_response_c8_request_failed.1 [] pOff 2 [] 500 (by norm_num)

/-- Claim C10: if two consecutive attempts within one get_response call
both produce ResourceNotFound, the first handler removes the offset key,
so the deletion in the second handler raises KeyError, which escapes the
loop (the result is the raised KeyError rather than any retry); the
cookies have been cleared by then. -/
theorem get_response_c10_double_not_found :
    (∀ (cookies : Cookies) (params : Params) (si : ℕ) (rest : List FetchOutcome)
        (off : String), params.offset = some off →
        get_response_loop cookies params si
            (.resourceNotFound :: .resourceNotFound :: rest)
          = { outcome := .raised .keyError, params := { params with offset := none },
              cookies := [], sleeps := [] })
    ∧ (get_response [] pOff [.resourceNotFound, .resourceNotFound]).outcome
        = .raised .keyError := by
  refine ⟨?_, by decide⟩
  intro cookies params si rest off ho
  simp [get_response_loop, ho]

/-- Claim C10, witness: the double ResourceNotFound at the concrete params
pOff, whose offset key is initially present. -/
theorem get_response_c10_witness :
    get_response_loop [] pOff 2
        [FetchOutcome.resourceNotFound, FetchOutcome.resourceNotFound]
      = { outcome := .raised .keyError, params := { pOff with offset := none },
          cookies := [], sleeps := [] } :=
  get_response_c10_double_not_found.1 [] pOff 2 [] "o1" (by decide)

/-- Against an upstream whose every page is non-empty, the forward
retriever never reaches the post-idle fetch site, so up_wait_sleep never
changes from its initial 30. -/
theorem retriever_forward_all_nonempty (n : ℕ) :
    (retriever_forward_run true 5 fwdStart30 allNonEmptyUpstream n).up_wait_sleep = 30
      ∧ (retriever_forward_run true 5 fwdStart30 allNonEmptyUpstream n).site
          ≠ FetchSite.postIdle := by
  induction n with
  | zero => exact ⟨rfl, by simp [fwdStart30, retriever_forward_run]⟩
  | succ n ih =>
      obtain ⟨h1, h2⟩ := ih
      constructor
      · simp [retriever_forward_run, retriever_forward_step, h1, h2]
      · simp [retriever_forward_run, retriever_forward_step, allNonEmptyUpstream]

/-- Claim C1, counterexample to the claim as stated: with adaptive
enabled, up_wait_sleep_min = 5 and up_wait_sleep starting at 30, against
an upstream returning a non-empty forward page on every poll, after 25
polls up_wait_sleep is still 30, not 5. -/
theorem retriever_forward_c1_counterexample :
    (retriever_forward_run true 5 fwdStart30 allNonEmptyUpstream 25).up_wait_sleep = 30
      ∧ (30 : ℤ) ≠ 5 := by decide

/-- Claim C1, amended: with adaptive enabled, up_wait_sleep is adjusted
only after the poll that follows an idle sleep (the post-idle fetch site):
that poll decrements it by 1 when non-empty and the value is above
up_wait_sleep_min, increments it by 1 when empty and the value is below
30, and leaves it unchanged at the bounds; polls at the initial or inner
sites never change it.  Consequently, against an upstream that returns a
non-empty forward page on every poll starting from up_wait_sleep = 30, the
retriever stays in the inner loop, the post-idle site is never reached,
and up_wait_sleep remains 30 after every number of polls - it never
reaches up_wait_sleep_min = 5. -/
theorem retriever_forward_c1_adaptive_amended :
    (∀ (m : ℤ) (st : FwdState) (p : Page), st.site ≠ .postIdle →
        (retriever_forward_step true m st p).up_wait_sleep = st.up_wait_sleep)
    ∧ (∀ (m : ℤ) (st : FwdState) (p : Page),
        st.site = .postIdle → p.data ≠ [] → st.up_wait_sleep > m →
        (retriever_forward_step true m st p).up_wait_sleep = st.up_wait_sleep - 1)
    ∧ (∀ (m : ℤ) (st : FwdState) (p : Page),
        st.site = .postIdle → p.data ≠ [] → ¬ st.up_wait_sleep > m →
        (retriever_forward_step true m st p).up_wait_sleep = st.up_wait_sleep)
    ∧ (∀ (m : ℤ) (st : FwdState) (p : Page),
        st.site = .postIdle → p.data = [] → st.up_wait_sleep < 30 →
        (retriever_forward_step true m st p).up_wait_sleep = st.up_wait_sleep + 1)
    ∧ (∀ (m : ℤ) (st : FwdState) (p : Page),
        st.site = .postIdle → p.data = [] → ¬ st.up_wait_sleep < 30 →
        (retriever_forward_step true m st p).up_wait_sleep = st.up_wait_sleep)
    ∧ (∀ n : ℕ,
        (retriever_forward_run true 5 fwdStart30 allNonEmptyUpstream n).up_wait_sleep
          = 30) := by
  refine ⟨?_, ?_, ?_, ?_, ?_, fun n => (retriever_forward_all_nonempty n).1⟩
  · intro m st p hsite
    simp [retriever_forward_step, hsite]
  · intro m st p hsite hdata hgt
    simp [retriever_forward_step, adaptive_adjust, hsite, hdata, hgt]
  · intro m st p hsite hdata hgt
    simp [retriever_forward_step, adaptive_adjust, hsite, hdata, hgt]
  · intro m st p hsite hdata hlt
    simp [retriever_forward_step, adaptive_adjust, hsite, hdata, hlt]
  · intro m st p hsite hdata hlt
    simp [retriever_forward_step, adaptive_adjust, hsite, hdata, hlt]

/-- Claim C1, witness: a non-post-idle step at a concrete state and page
leaves up_wait_sleep unchanged. -/
theorem retriever_forward_c1_witness :
    (retriever_forward_step true 5 fwdStart30 page0).up_wait_sleep
      = fwdStart30.up_wait_sleep :=
  retriever_forward_c1_adaptive_amended.1 5 fwdStart30 page0 (by decide)

/-- One forward fetch keeps up_wait_sleep within the closed interval
between up_wait_sleep_min and 30 (over the integers, a decrement guarded
by being above the floor stays at or above the floor, and an increment
guarded by being below 30 stays at or below 30). -/
theorem retriever_forward_step_bounds (adaptive : Bool) (m : ℤ) (st : FwdState)
    (p : Page) (h1 : m ≤ st.up_wait_sleep) (h2 : st.up_wait_sleep ≤ 30) :
    m ≤ (retriever_forward_step adaptive m st p).up_wait_sleep
      ∧ (retriever_forward_step adaptive m st p).up_wait_sleep ≤ 30 := by
  simp only [retriever_forward_step, adaptive_adjust]
  split_ifs <;> constructor <;> omega

/-- Claim C6: if the initial configuration satisfies up_wait_sleep_min ≤
up_wait_sleep ≤ 30 then, whatever pages the upstream serves and whether or
not adaptive is enabled, after any number of forward fetches up_wait_sleep
still lies in the closed interval from up_wait_sleep_min to 30. -/
theorem retriever_forward_c6_adaptive_bounds
    (adaptive : Bool) (m : ℤ) (st : FwdState) (upstream : ℕ → Page) (n : ℕ)
    (h1 : m ≤ st.up_wait_sleep) (h2 : st.up_wait_sleep ≤ 30) :
    m ≤ (retriever_forward_run adaptive m st upstream n).up_wait_sleep
      ∧ (retriever_forward_run adaptive m st upstream n).up_wait_sleep ≤ 30 := by
  induction n with
  | zero => exact ⟨h1, h2⟩
  | succ n ih =>
      exact retriever_forward_step_bounds adaptive m _ (upstream n) ih.1 ih.2

/-- Claim C6, witness: the bounds hold after three polls of a concrete
adaptive run started at the default configuration. -/
theorem retriever_forward_c6_witness :
    (5 : ℤ) ≤ (retriever_forward_run true 5 fwdStart30 allNonEmptyUpstream 3).up_wait_sleep
      ∧ (retriever_forward_run true 5 fwdStart30 allNonEmptyUpstream 3).up_wait_sleep
          ≤ 30 :=
  retriever_forward_c6_adaptive_bounds true 5 fwdStart30 allNonEmptyUpstream 3
    (by decide) (by decide)

/-- Claim C4: when a fetched page has an empty item list the backward
retriever sets its status to FINISHED and returns the clean-termination
signal 0 (first conjunct); the supervisor loop, seeing the backward worker
ready with value 0, clears check_down_worker without restarting (second
conjunct), and with check_down_worker cleared it never again inspects the
backward worker nor restarts on its account for the rest of the generation
(third conjunct, any observation with the forward worker still running);
a backward worker that terminated with any value other than 0 - including
none, a greenlet killed by an exception - triggers restart_sync and
re-arms the check (fourth conjunct). -/
theorem retriever_backward_c4_finish :
    (∀ (offset : String) (emitted : List ℕ) (p : Page) (rest : List Page),
        p.data = [] →
        retriever_backward offset emitted (p :: rest)
          = some { status := FINISHED, retval := 0, emitted := emitted, offset := offset })
    ∧ (∀ r : ℕ,
        get_resource_items_step { check_down_worker := true, restarts := r }
            { backward_ready := true, backward_value := some 0, forward_ready := false }
          = { check_down_worker := false, restarts := r })
    ∧ (∀ (r : ℕ) (obs : SupervisorObs), obs.forward_ready = false →
        get_resource_items_step { check_down_worker := false, restarts := r } obs
          = { check_down_worker := false, restarts := r })
    ∧ (∀ (r : ℕ) (v : Option ℤ), v ≠ some 0 →
        get_resource_items_step { check_down_worker := true, restarts := r }
            { backward_ready := true, backward_value := v, forward_ready := false }
          = { check_down_worker := true, restarts := r + 1 }) := by
  refine ⟨?_, ?_, ?_, ?_⟩
  · intro offset emitted p rest hp
    simp [retriever_backward, hp]
  · intro r
    simp [get_resource_items_step]
  · intro r obs hf
    simp [get_resource_items_step, hf]
  · intro r v hv
    simp [get_resource_items_step, hv]

/-- Claim C4, witness: a concrete empty page finishes the backward
retriever with value 0; the supervisor ignores a cleared check; a value of
none restarts. -/
theorem retriever_backward_c4_witness :
    retriever_backward "off3" [1, 2] [{ data := [], next_offset := "n3", prev_offset := "p3" }]
      = some { status := FINISHED, retval := 0, emitted := [1, 2], offset := "off3" } :=
  retriever_backward_c4_finish.1 "off3" [1, 2]
    { data := [], next_offset := "n3", prev_offset := "p3" } [] (by decide)

/-- handle_response_data appends the page items to the queue in order. -/
theorem handle_response_data_eq (queue data : List ℕ) :
    handle_response_data queue data = queue ++ data := by
  induction data generalizing queue with
  | nil => simp [handle_response_data]
  | cons x xs ih =>
      simp only [handle_response_data, List.foldl_cons] at ih ⊢
      rw [ih]
      simp

/-- Claim C5: start_sync run on a state prepared by init_api_clients
performs, in this order, one synchronous fetch with the backward params
(whose descending flag init_api_clients set to true), one queue put per
item of the seed page in page order, the assignment of the backward offset
to the next offset of the seed page, the assignment of the forward offset to
the prev offset of the seed page, and only then the spawning of the backward
and forward workers; the resulting state has all seed items appended to
the queue, the two cursors set accordingly, and both workers spawned. -/
theorem start_sync_c5_seeding (st : FeederState) (seed : Page) :
    ((start_sync (init_api_clients st) seed).2
        = .fetch true ::
            (seed.data.map .put ++
              [.setBackwardOffset seed.next_offset, .setForwardOffset seed.prev_offset,
               .spawnBackward, .spawnForward]))
    ∧ (start_sync (init_api_clients st) seed).1.queue = st.queue ++ seed.data
    ∧ (start_sync (init_api_clients st) seed).1.backward_params.offset
        = some seed.next_offset
    ∧ (start_sync (init_api_clients st) seed).1.forward_params.offset
        = some seed.prev_offset
    ∧ (start_sync (init_api_clients st) seed).1.backward_spawned = true
    ∧ (start_sync (init_api_clients st) seed).1.forward_spawned = true := by
  refine ⟨?_, ?_, rfl, rfl, rfl, rfl⟩
  · simp [start_sync, init_api_clients]
  · simp [start_sync, init_api_clients, handle_response_data_eq]

/-- Claim C9: every state of the queue system reachable from the empty
queue of any capacity m holds at most maxsize items (first conjunct); from
a full queue with a retriever in the middle of pushing a page, the only
enabled transition is a consumer get - the retriever can neither put (so
no item is dropped) nor fetch (so it issues no further fetches while
blocked) nor finish the page (second conjunct); and the default capacity,
DEFAULT_RETRIEVERS_PARAMS queue_size, is 101 (third conjunct). -/
theorem queue_c9_backpressure :
    (∀ (m : ℕ) (s : QState), QReach m s → s.queue.length ≤ s.maxsize)
    ∧ (∀ (s : QState) (l : QLabel) (s' : QState) (x : ℕ) (pending : List ℕ),
        QStep s l s' → s.queue.length = s.maxsize → s.prod = .pushing (x :: pending) →
        ∃ y, l = .get y)
    ∧ DEFAULT_RETRIEVERS_PARAMS.queue_size = 101 := by
  refine ⟨?_, ?_, rfl⟩
  · intro m s h
    induction h with
    | init => simp
    | step hr hs ih =>
        cases hs with
        | fetch page hp => simpa using ih
        | put x pending hp hlen =>
            simpa using hlen
        | pageDone hp => simpa using ih
        | get x rest hq =>
            rw [hq] at ih
            simp at ih ⊢
            omega
  · intro s l s' x pending hstep hfull hprod
    cases hstep with
    | fetch page hp => rw [hprod] at hp; cases hp
    | put y pend hp hlen => omega
    | pageDone hp => rw [hprod] at hp; cases hp
    | get y rest hq => exact ⟨y, rfl⟩

/-- Claim C9, witness: the initial empty queue of the default capacity is
reachable and within bounds. -/
theorem queue_c9_witness :
    ({ maxsize := 101, queue := [], prod := .fetching, fetches := 0 } : QState).queue.length
      ≤ ({ maxsize := 101, queue := [], prod := .fetching, fetches := 0 } : QState).maxsize :=
  queue_c9_backpressure.1 101 _ QReach.init


end OPClient
